import Mathlib

/- Shallow embedding of the lane-arbitration core of the fleet-management
   system: `TrafficManager` (controllers/traffic_manager.py), the per-agent
   state machine `Robot` (models/robot.py), the path provider `NavGraph`
   (models/nav_graph.py, wrapping networkx), and `FleetManager.assign_task`
   (controllers/fleet_manager.py).  Python dictionaries keyed by lanes are
   modelled as total functions with `none` / `[]` standing for an absent key;
   `time.time()` values are rationals passed explicitly where the Python
   reads the clock.  Logging (`_log`, `_log_event`, `event_log`,
   `fleet_logs.txt`, stdout) and the unread field `last_update_time` are
   observationally irrelevant and omitted. -/

namespace FleetSim

/-- A lane is an ordered pair of vertex ids (Python ints). -/
abbrev Lane := Int × Int

/-- The reverse lane `(lane[1], lane[0])` used throughout traffic_manager.py. -/
def reverseLane (l : Lane) : Lane := (l.2, l.1)

/-- State of `TrafficManager.__init__`: `occupied_lanes : {lane: robot_id}`,
`waiting_queues : {lane: [robot_id]}` (FIFO), `occupation_timestamps :
{lane: float}`, and `last_deadlock_check` (set to the current time at
construction). -/
structure TrafficManager where
  occupied_lanes : Lane → Option Int
  waiting_queues : Lane → List Int
  occupation_timestamps : Lane → Option ℚ
  last_deadlock_check : ℚ

/-- Fresh manager: empty dictionaries, `last_deadlock_check = time.time()`
(passed in as `t0`). -/
def TrafficManager.init (t0 : ℚ) : TrafficManager :=
  { occupied_lanes := fun _ => none
    waiting_queues := fun _ => []
    occupation_timestamps := fun _ => none
    last_deadlock_check := t0 }

/-- `TrafficManager.detect_collisions(lane)` for a specific lane: returns
`[(lane, reverse_lane)]` when the reverse lane is in `occupied_lanes`, else
`[]`.  (The `lane=None` scan over all occupied lanes is used only by the
GUI and is not needed by any claim.) -/
def TrafficManager.detect_collisions (tm : TrafficManager) (lane : Lane) :
    List (Lane × Lane) :=
  if (tm.occupied_lanes (reverseLane lane)).isSome then
    [(lane, reverseLane lane)]
  else []

/-- `TrafficManager.request_lane(robot_id, lane)`.  Order of the Python
branches: (1) `if self.detect_collisions(lane): ... return False` (the
BLOCKED path, which only logs — it does NOT enqueue); (2) if neither the
lane nor its reverse is occupied, reserve it with the current timestamp and
return True; (3) otherwise append `robot_id` to the lane's wait queue
unless already present, and return False.  `now` stands for
`time.time()`. -/
def TrafficManager.request_lane (tm : TrafficManager) (robot_id : Int)
    (lane : Lane) (now : ℚ) : TrafficManager × Bool :=
  if tm.detect_collisions lane ≠ [] then
    (tm, false)
  else if tm.occupied_lanes lane = none ∧
      tm.occupied_lanes (reverseLane lane) = none then
    ({ tm with
        occupied_lanes := Function.update tm.occupied_lanes lane (some robot_id)
        occupation_timestamps :=
          Function.update tm.occupation_timestamps lane (some now) },
     true)
  else
    ({ tm with
        waiting_queues := Function.update tm.waiting_queues lane
          (if robot_id ∈ tm.waiting_queues lane then tm.waiting_queues lane
           else tm.waiting_queues lane ++ [robot_id]) },
     false)

/-- Second half of `TrafficManager.release_lane` (lines 58-61): if the
lane's wait queue is non-empty, `pop(0)` its head (the popped robot is
discarded — "Don't automatically grant"). -/
def TrafficManager.release_lane_queue_step (tm : TrafficManager) (lane : Lane) :
    TrafficManager :=
  if tm.waiting_queues lane ≠ [] then
    { tm with
        waiting_queues := Function.update tm.waiting_queues lane
          ((tm.waiting_queues lane).drop 1) }
  else tm

/-- `TrafficManager.release_lane(lane)`: if the lane is occupied, delete it
from `occupied_lanes` and (nested guard) from `occupation_timestamps`;
then, unconditionally, run the queue step above. -/
def TrafficManager.release_lane (tm : TrafficManager) (lane : Lane) :
    TrafficManager :=
  TrafficManager.release_lane_queue_step
    (if (tm.occupied_lanes lane).isSome then
      { tm with
          occupied_lanes := Function.update tm.occupied_lanes lane none
          occupation_timestamps :=
            if (tm.occupation_timestamps lane).isSome then
              Function.update tm.occupation_timestamps lane none
            else tm.occupation_timestamps }
    else tm) lane

/-- `TrafficManager.is_lane_occupied(lane)`: membership in
`occupied_lanes` only. -/
def TrafficManager.is_lane_occupied (tm : TrafficManager) (lane : Lane) : Bool :=
  (tm.occupied_lanes lane).isSome

/-- A lane is stale at time `now` when it has a reservation timestamp `ts`
with `now - ts > 5.0` (the comprehension in `_perform_periodic_checks`). -/
def TrafficManager.isStale (tm : TrafficManager) (now : ℚ) (lane : Lane) : Bool :=
  match tm.occupation_timestamps lane with
  | some ts => decide (now - ts > 5)
  | none => false

/-- `TrafficManager._perform_periodic_checks`: if
`now - last_deadlock_check > 2.0`, set `last_deadlock_check = now`, collect
the stale lanes (materialised BEFORE the loop) and run `release_lane` on
each.  Each `release_lane lane` touches only that lane's entries of the
three dictionaries and the stale lanes are distinct keys, so the loop is
written here as the equivalent pointwise update: a stale lane is dropped
from `occupied_lanes`, dropped from `occupation_timestamps` when it was
occupied (release's nested guard), and has its wait-queue head popped. -/
def TrafficManager.perform_periodic_checks (tm : TrafficManager) (now : ℚ) :
    TrafficManager :=
  if now - tm.last_deadlock_check > 2 then
    { occupied_lanes := fun l =>
        if tm.isStale now l then none else tm.occupied_lanes l
      occupation_timestamps := fun l =>
        if tm.isStale now l ∧ (tm.occupied_lanes l).isSome then none
        else tm.occupation_timestamps l
      waiting_queues := fun l =>
        if tm.isStale now l then (tm.waiting_queues l).drop 1
        else tm.waiting_queues l
      last_deadlock_check := now }
  else tm

/-- Arbiter states reachable from a fresh `TrafficManager` by sequences of
`request_lane`, `release_lane` and periodic stale reclamation.  Requests
carry the spec's precondition on well-formed lanes (`from ≠ to`,
§4.1 `requestLane`). -/
inductive Reachable : TrafficManager → Prop
  | init (t0 : ℚ) : Reachable (TrafficManager.init t0)
  | request (tm : TrafficManager) (r : Int) (lane : Lane) (now : ℚ)
      (hwf : lane.1 ≠ lane.2) (h : Reachable tm) :
      Reachable (tm.request_lane r lane now).1
  | release (tm : TrafficManager) (lane : Lane) (h : Reachable tm) :
      Reachable (tm.release_lane lane)
  | reclaim (tm : TrafficManager) (now : ℚ) (h : Reachable tm) :
      Reachable (tm.perform_periodic_checks now)

/-- Bidirectional mutual exclusion: no lane is reserved together with its
reverse. -/
def MutexInv (tm : TrafficManager) : Prop :=
  ∀ L : Lane, tm.occupied_lanes L ≠ none →
    tm.occupied_lanes (reverseLane L) = none

/-- Exceptions that escape the modelled Python code: networkx's
`NodeNotFound` (raised by `astar_path` when an endpoint is not in the
graph; NOT caught by `except NetworkXNoPath`) and `AttributeError`
(raised when `Robot.update` dispatches to the undefined handlers
`_handle_charging` / `_handle_low_battery`). -/
inductive PyError where
  | nodeNotFound : PyError
  | attributeError : PyError
  deriving DecidableEq

/-- Model of `NavGraph` (models/nav_graph.py) and its networkx `DiGraph`:
`nodes` is the node set of the loaded graph, `path s t` the vertex
sequence A* finds from `s` to `t` (`[]` meaning no path exists).  The
pathfinding itself is an external collaborator (spec §2 PathProvider), so
it is carried as an abstract function. -/
structure NavGraph where
  nodes : List Int
  path : Int → Int → List Int

/-- `NavGraph.get_shortest_path(start, end)` (models/nav_graph.py):
`try: return nx.astar_path(...) except nx.NetworkXNoPath: return []`.
In networkx, `astar_path` raises `NodeNotFound` when source or target is
not in the graph and `NetworkXNoPath` (a different subclass of
`NetworkXException`) when the target is unreachable.  Only
`NetworkXNoPath` is caught, so the try/except inlines to: an absent
endpoint raises `NodeNotFound`, an unreachable pair yields `[]`. -/
def NavGraph.get_shortest_path (g : NavGraph) (s t : Int) :
    Except PyError (List Int) :=
  if s ∉ g.nodes ∨ t ∉ g.nodes then .error .nodeNotFound
  else .ok (g.path s t)

/-- `RobotConfig` (models/robot.py), Python floats as rationals. -/
structure RobotConfig where
  battery_drain_rate : ℚ := 1/2
  charge_rate : ℚ := 2
  min_battery : ℚ := 20
  max_wait_time : ℚ := 10
  movement_speed : ℚ := 1

/-- `Robot` state (models/robot.py `__init__`), statuses as the string
literals the code uses.  Rendering-only fields (`color`, `log`) and the
never-read `last_update_time` are omitted. -/
structure Robot where
  id : Int
  current_vertex : Int
  destination : Option Int
  path : List Int
  status : String
  battery : ℚ
  wait_start_time : Option ℚ
  config : RobotConfig
  nav_graph : NavGraph
  current_lane : Option Lane
  progress : ℚ

/-- `Robot._calculate_path`: when a destination is set, recompute
`self.path = nav_graph.get_shortest_path(current_vertex, destination)`
(which may raise `NodeNotFound`); on an empty result set
`self.status = "error"`. -/
def Robot.calculate_path (r : Robot) : Except PyError Robot :=
  match r.destination with
  | none => .ok r
  | some d => do
      let p ← r.nav_graph.get_shortest_path r.current_vertex d
      if p = [] then
        .ok { r with path := p, status := "error" }
      else
        .ok { r with path := p }

/-- `Robot.assign_task(destination_idx)` (the live definition at
models/robot.py:88): reject when charging or in error; otherwise store the
destination, recompute the path; fail if the path is empty (status was
already set to "error" inside `_calculate_path`); otherwise reset
`progress`, `current_lane`, `wait_start_time`, set status "moving" and
succeed.  No `TrafficManager` argument exists: the method cannot release
any held lane. -/
def Robot.assign_task (r : Robot) (destination_idx : Int) :
    Except PyError (Robot × Bool) :=
  if r.status = "charging" ∨ r.status = "error" then .ok (r, false)
  else do
    let r1 ← Robot.calculate_path { r with destination := some destination_idx }
    if r1.path = [] then .ok (r1, false)
    else
      .ok ({ r1 with
              progress := 0
              current_lane := none
              status := "moving"
              wait_start_time := none }, true)

/-- `Robot._check_imminent_collision(traffic_manager, delta_time)`:
false unless a lane is held and the path has at least two vertices; then,
if `progress + movement_speed * delta_time ≥ 1.0`, report whether the next
lane `(path[0], path[1])` is occupied. -/
def Robot.check_imminent_collision (r : Robot) (tm : TrafficManager)
    (delta_time : ℚ) : Bool :=
  match r.current_lane, r.path with
  | some _, p0 :: p1 :: _ =>
      if r.progress + r.config.movement_speed * delta_time ≥ 1 then
        tm.is_lane_occupied (p0, p1)
      else false
  | _, _ => false

/-- `Robot._handle_movement(traffic_manager, delta_time)` — models/robot.py:151.
`now` stands for `time.time()`.  Returns the updated robot, the updated
traffic manager, and the Python return value. -/
def Robot.handle_movement (r : Robot) (tm : TrafficManager)
    (delta_time now : ℚ) : Robot × TrafficManager × Bool :=
  match r.path with
  | [] => (r, tm, false)
  | next_vertex :: _ =>
    let lane : Lane := (r.current_vertex, next_vertex)
    let move : Robot → TrafficManager → Robot × TrafficManager × Bool :=
      fun r1 tm1 =>
        let prog := r1.progress + delta_time * r1.config.movement_speed
        if prog ≥ 1 then
          let r2 := { r1 with
                        current_vertex := next_vertex
                        path := r1.path.drop 1
                        progress := 0 }
          let (r3, tm2) :=
            match r2.current_lane with
            | some l => ({ r2 with current_lane := none }, tm1.release_lane l)
            | none => (r2, tm1)
          let r4 := if r3.path = [] then { r3 with status := "idle" } else r3
          (r4, tm2, true)
        else
          ({ r1 with
              progress := prog
              battery := max 0 (r1.battery - r1.config.battery_drain_rate * delta_time) },
           tm1, true)
    if r.current_lane ≠ some lane then
      let (tm', granted) := tm.request_lane r.id lane now
      if granted then
        move { r with current_lane := some lane, progress := 0 } tm'
      else if r.status ≠ "waiting" then
        ({ r with wait_start_time := some now, status := "waiting" }, tm', false)
      else (r, tm', false)
    else move r tm

/-- `Robot._handle_waiting(current_time)`: the Python guard is
`if self.wait_start_time and (current_time - self.wait_start_time) >
self.config.max_wait_time`, so `wait_start_time` must be TRUTHY — neither
None nor the falsy float 0.0 — and the wait must exceed `max_wait_time`;
then recompute the path (which may set status "error" on an empty path)
and unconditionally set status "moving", returning True; otherwise return
False. -/
def Robot.handle_waiting (r : Robot) (current_time : ℚ) :
    Except PyError (Robot × Bool) :=
  match r.wait_start_time with
  | some w =>
      if w ≠ 0 ∧ current_time - w > r.config.max_wait_time then do
        let r1 ← r.calculate_path
        .ok ({ r1 with status := "moving" }, true)
      else .ok (r, false)
  | none => .ok (r, false)

/-- `Robot.update(traffic_manager, delta_time)` — models/robot.py:115.
Dispatch order is exactly the Python's: predictive-collision override to
"emergency_stop", then `charging` (calls the UNDEFINED `_handle_charging`,
hence `AttributeError`), `error` (no-op), low battery (calls the UNDEFINED
`_handle_low_battery`, hence `AttributeError`), `moving` (movement then a
second predictive check), `waiting`.  `now` stands for `time.time()`. -/
def Robot.update (r : Robot) (tm : TrafficManager) (delta_time now : ℚ) :
    Except PyError (Robot × TrafficManager × Bool) :=
  let r0 := if r.check_imminent_collision tm delta_time then
              { r with status := "emergency_stop" } else r
  if r0.status = "charging" then .error .attributeError
  else if r0.status = "error" then .ok (r0, tm, false)
  else if r0.battery < r0.config.min_battery then .error .attributeError
  else if r0.status = "moving" then
    let (r1, tm1, changed) := r0.handle_movement tm delta_time now
    let r2 := if r1.check_imminent_collision tm1 delta_time then
                { r1 with status := "emergency_stop" } else r1
    .ok (r2, tm1, changed)
  else if r0.status = "waiting" then do
    let (r1, changed) ← r0.handle_waiting now
    .ok (r1, tm, changed)
  else .ok (r0, tm, false)

/-- Result dictionary of `FleetManager.assign_task`
(controllers/fleet_manager.py:57).  Python interpolates ids into the
message strings; the interpolated values are dropped here. -/
structure FleetResult where
  success : Bool
  message : String
  estimated_time : ℚ
  path : List Int
  deriving DecidableEq

/-- `FleetManager.get_robot(robot_id)`: first robot with a matching id. -/
def FleetManager.get_robot (robots : List Robot) (robot_id : Int) :
    Option Robot :=
  robots.find? (fun r => r.id == robot_id)

/-- `FleetManager.assign_task(robot_id, destination_idx)`: robot-not-found
and robot-charging are rejected with a typed result; then the fleet itself
computes the shortest path (this call can raise `NodeNotFound`); an empty
path is rejected with a typed result BEFORE `robot.assign_task` is invoked
(so the robot is untouched in that branch); otherwise the robot is
reassigned in place (ids are unique, so replacing every matching id models
the in-place mutation) and the result carries
`estimated_time = len(path) * 1.0`. -/
def FleetManager.assign_task (robots : List Robot) (robot_id destination_idx : Int) :
    Except PyError (List Robot × FleetResult) :=
  match FleetManager.get_robot robots robot_id with
  | none =>
      .ok (robots,
        { success := false, message := "Robot not found"
          estimated_time := 0, path := [] })
  | some robot =>
    if robot.status = "charging" then
      .ok (robots,
        { success := false, message := "Robot is charging"
          estimated_time := 0, path := [] })
    else do
      let path ← robot.nav_graph.get_shortest_path robot.current_vertex destination_idx
      if path = [] then
        .ok (robots,
          { success := false, message := "No valid path to destination"
            estimated_time := 0, path := [] })
      else do
        let (robot', success) ← robot.assign_task destination_idx
        .ok (robots.map (fun x => if x.id = robot_id then robot' else x),
          { success := success
            message := if success then "Assignment succeeded" else "Assignment failed"
            estimated_time := (path.length : ℚ) * 1
            path := path })

/-- A concrete arbiter state whose lane (0,1) is unreserved but still has
the non-empty wait queue [5]. -/
def c4_tm : TrafficManager :=
  { occupied_lanes := fun _ => none
    waiting_queues := fun l => if l = ((0 : Int), (1 : Int)) then [5] else []
    occupation_timestamps := fun _ => none
    last_deadlock_check := 0 }

/-- Graph for the reassignment scenario: 0→5 runs via [0,4,5] and 0→3 via
[0,1,2,3]. -/
def c5_graph : NavGraph :=
  { nodes := [0, 1, 2, 3, 4, 5]
    path := fun s t =>
      if s = 0 ∧ t = 5 then [0, 4, 5]
      else if s = 0 ∧ t = 3 then [0, 1, 2, 3]
      else [] }

/-- A moving robot headed for vertex 3 that currently holds lane (0,1). -/
def c5_robot : Robot :=
  { id := 1, current_vertex := 0, destination := some 3, path := [1, 2, 3]
    status := "moving", battery := 100, wait_start_time := none
    config := {}, nav_graph := c5_graph
    current_lane := some ((0 : Int), (1 : Int)), progress := 1/2 }

/-- The arbiter state recording c5_robot's hold of lane (0,1). -/
def c5_tm : TrafficManager :=
  { occupied_lanes := fun l => if l = ((0 : Int), (1 : Int)) then some 1 else none
    waiting_queues := fun _ => []
    occupation_timestamps := fun l => if l = ((0 : Int), (1 : Int)) then some 0 else none
    last_deadlock_check := 0 }

/-- A graph in which vertex 9 exists but no path reaches it. -/
def c6_graph : NavGraph := { nodes := [0, 9], path := fun _ _ => [] }

/-- An idle robot at vertex 0 of c6_graph. -/
def c6_robot : Robot :=
  { id := 1, current_vertex := 0, destination := none, path := []
    status := "idle", battery := 100, wait_start_time := none
    config := {}, nav_graph := c6_graph, current_lane := none, progress := 0 }

/-- An arbiter state where agent 1 has held lane (0,1) since time 0 and
the periodic-check clock also reads 0. -/
def c7_tm : TrafficManager :=
  { occupied_lanes := fun l => if l = ((0 : Int), (1 : Int)) then some 1 else none
    waiting_queues := fun _ => []
    occupation_timestamps := fun l => if l = ((0 : Int), (1 : Int)) then some 0 else none
    last_deadlock_check := 0 }

/-- An idle robot: the whole fleet sits idle while c7_tm's reservation
ages past the 5-second staleness bound. -/
def c7_robot : Robot :=
  { id := 2, current_vertex := 0, destination := none, path := []
    status := "idle", battery := 100, wait_start_time := none
    config := {}, nav_graph := { nodes := [0], path := fun _ _ => [] }
    current_lane := none, progress := 0 }

/-- A waiting robot whose wait started at time 1 (a truthy, non-zero
timestamp, as `time.time()` always is) and whose destination 9 exists in
the graph but has become unreachable (the provider now returns an empty
path). -/
def c8_robot : Robot :=
  { id := 1, current_vertex := 0, destination := some 9, path := []
    status := "waiting", battery := 100, wait_start_time := some 1
    config := {}, nav_graph := { nodes := [0, 9], path := fun _ _ => [] }
    current_lane := none, progress := 0 }

/-- An idle robot at vertex 0 of a graph whose nodes are exactly 0 and 1:
vertex id 999 is out of range. -/
def c9_robot : Robot :=
  { id := 1, current_vertex := 0, destination := none, path := []
    status := "idle", battery := 100, wait_start_time := none
    config := {}
    nav_graph := { nodes := [0, 1], path := fun s t => if s = 0 ∧ t = 1 then [0, 1] else [] }
    current_lane := none, progress := 0 }

/-- An arbiter state in which lane (1,2) is occupied by agent 9. -/
def c10_tm : TrafficManager :=
  { occupied_lanes := fun l => if l = ((1 : Int), (2 : Int)) then some 9 else none
    waiting_queues := fun _ => []
    occupation_timestamps := fun l => if l = ((1 : Int), (2 : Int)) then some 0 else none
    last_deadlock_check := 0 }

/-- A charging robot that nevertheless holds a lane, has a two-vertex
path remainder, and will cross progress 1.0 this tick while the next lane
(1,2) is occupied — so the predictive collision check fires. -/
def c10_robot : Robot :=
  { id := 3, current_vertex := 0, destination := some 2, path := [1, 2]
    status := "charging", battery := 100, wait_start_time := none
    config := {}, nav_graph := { nodes := [], path := fun _ _ => [] }
    current_lane := some ((0 : Int), (1 : Int)), progress := 1/2 }

/-- A charging robot in an ordinary charging situation: no lane held, so
the predictive collision check cannot fire. -/
def c10_charging_robot : Robot :=
  { id := 4, current_vertex := 0, destination := none, path := []
    status := "charging", battery := 50, wait_start_time := none
    config := {}, nav_graph := { nodes := [], path := fun _ _ => [] }
    current_lane := none, progress := 0 }

/-- An idle robot whose battery (10) is below the configured minimum
(20). -/
def c10_lowbat_robot : Robot :=
  { id := 5, current_vertex := 0, destination := none, path := []
    status := "idle", battery := 10, wait_start_time := none
    config := {}, nav_graph := { nodes := [], path := fun _ _ => [] }
    current_lane := none, progress := 0 }

end FleetSim

namespace FleetSim

lemma reverseLane_reverseLane (l : Lane) : reverseLane (reverseLane l) = l := rfl

lemma mutexInv_init (t0 : ℚ) : MutexInv (TrafficManager.init t0) := by
  intro L hL
  simp [TrafficManager.init] at hL

lemma mutexInv_request (tm : TrafficManager) (r : Int) (lane : Lane) (now : ℚ)
    (hwf : lane.1 ≠ lane.2) (h : MutexInv tm) :
    MutexInv (tm.request_lane r lane now).1 := by
  unfold TrafficManager.request_lane
  split
  · exact h
  · split
    · rename_i havail
      obtain ⟨h1, h2⟩ := havail
      intro L hL
      simp only at hL ⊢
      by_cases hLl : L = lane
      · subst hLl
        have hne : reverseLane L ≠ L := by
          intro hEq
          exact hwf (congrArg Prod.fst hEq).symm
        rw [Function.update_noteq hne]
        exact h2
      · rw [Function.update_noteq hLl] at hL
        have hrev := h L hL
        have hrevne : reverseLane L ≠ lane := by
          intro hEq
          have hL2 : L = reverseLane lane := by
            rw [← hEq, reverseLane_reverseLane]
          rw [hL2] at hL
          exact hL h2
        rw [Function.update_noteq hrevne]
        exact hrev
    · intro L hL
      exact h L hL

lemma release_lane_queue_step_occ (tm : TrafficManager) (lane : Lane) :
    (tm.release_lane_queue_step lane).occupied_lanes = tm.occupied_lanes := by
  unfold TrafficManager.release_lane_queue_step
  split <;> rfl

lemma release_lane_occ_eq (tm : TrafficManager) (lane : Lane) :
    (tm.release_lane lane).occupied_lanes =
      if (tm.occupied_lanes lane).isSome then
        Function.update tm.occupied_lanes lane none
      else tm.occupied_lanes := by
  unfold TrafficManager.release_lane
  rw [release_lane_queue_step_occ]
  by_cases hocc : (tm.occupied_lanes lane).isSome
  · rw [if_pos hocc, if_pos hocc]
  · rw [if_neg hocc, if_neg hocc]

lemma mutexInv_release (tm : TrafficManager) (lane : Lane) (h : MutexInv tm) :
    MutexInv (tm.release_lane lane) := by
  intro L hL
  rw [release_lane_occ_eq] at hL ⊢
  by_cases hocc : (tm.occupied_lanes lane).isSome
  · rw [if_pos hocc] at hL ⊢
    by_cases hLl : L = lane
    · subst hLl
      rw [Function.update_same] at hL
      exact absurd rfl hL
    · rw [Function.update_noteq hLl] at hL
      have hrev := h L hL
      by_cases hrl : reverseLane L = lane
      · rw [hrl, Function.update_same]
      · rw [Function.update_noteq hrl]
        exact hrev
  · rw [if_neg hocc] at hL ⊢
    exact h L hL

lemma mutexInv_reclaim (tm : TrafficManager) (now : ℚ) (h : MutexInv tm) :
    MutexInv (tm.perform_periodic_checks now) := by
  intro L hL
  unfold TrafficManager.perform_periodic_checks at hL ⊢
  by_cases hc : now - tm.last_deadlock_check > 2
  · rw [if_pos hc] at hL ⊢
    simp only at hL ⊢
    by_cases hs : tm.isStale now L = true
    · simp [hs] at hL
    · simp only [hs, if_false, Bool.false_eq_true] at hL
      have hrev := h L hL
      by_cases hs' : tm.isStale now (reverseLane L) = true
      · simp [hs']
      · simp [hs', hrev]
  · rw [if_neg hc] at hL ⊢
    exact h L hL

lemma reachable_mutexInv (tm : TrafficManager) (h : Reachable tm) :
    MutexInv tm := by
  induction h with
  | init t0 => exact mutexInv_init t0
  | request tm' r lane now hwf _ ih => exact mutexInv_request tm' r lane now hwf ih
  | release tm' lane _ ih => exact mutexInv_release tm' lane ih
  | reclaim tm' now _ ih => exact mutexInv_reclaim tm' now ih

/-- C1: in every arbiter state reachable from the empty initial state by
request_lane, release_lane and stale-reclamation operations (requests
subject to the spec's well-formedness precondition `from ≠ to`), a
reserved lane's reverse is never reserved. -/
theorem c1_bidirectional_mutual_exclusion (tm : TrafficManager)
    (h : Reachable tm) (L : Lane) (hres : tm.occupied_lanes L ≠ none) :
    tm.occupied_lanes (reverseLane L) = none :=
  reachable_mutexInv tm h L hres

/-- Witness for C1: in the reachable state where agent 1 has been granted
lane (0,1), that lane is reserved and its reverse (1,0) is not. -/
theorem c1_bidirectional_mutual_exclusion_witness :
    ((TrafficManager.init 0).request_lane 1 ((0 : Int), (1 : Int)) 0).1.occupied_lanes
        ((0 : Int), (1 : Int)) ≠ none ∧
    ((TrafficManager.init 0).request_lane 1 ((0 : Int), (1 : Int)) 0).1.occupied_lanes
        (reverseLane ((0 : Int), (1 : Int))) = none :=
  ⟨by decide,
   c1_bidirectional_mutual_exclusion _
     (Reachable.request (TrafficManager.init 0) 1 ((0 : Int), (1 : Int)) 0
       (by decide) (Reachable.init 0))
     ((0 : Int), (1 : Int)) (by decide)⟩

end FleetSim

namespace FleetSim

lemma request_lane_blocked (tm : TrafficManager) (r : Int) (lane : Lane)
    (now : ℚ) (h : (tm.occupied_lanes (reverseLane lane)).isSome) :
    tm.request_lane r lane now = (tm, false) := by
  unfold TrafficManager.request_lane TrafficManager.detect_collisions
  rw [if_pos h]
  simp

lemma request_lane_grant (tm : TrafficManager) (r : Int) (lane : Lane)
    (now : ℚ) (h1 : tm.occupied_lanes lane = none)
    (h2 : tm.occupied_lanes (reverseLane lane) = none) :
    tm.request_lane r lane now =
      ({ tm with
          occupied_lanes := Function.update tm.occupied_lanes lane (some r)
          occupation_timestamps :=
            Function.update tm.occupation_timestamps lane (some now) },
       true) := by
  unfold TrafficManager.request_lane TrafficManager.detect_collisions
  rw [h2]
  simp [h1]

lemma request_lane_enqueue (tm : TrafficManager) (r : Int) (lane : Lane)
    (now : ℚ) (h2 : tm.occupied_lanes (reverseLane lane) = none)
    (h1 : tm.occupied_lanes lane ≠ none) :
    tm.request_lane r lane now =
      ({ tm with
          waiting_queues := Function.update tm.waiting_queues lane
            (if r ∈ tm.waiting_queues lane then tm.waiting_queues lane
             else tm.waiting_queues lane ++ [r]) },
       false) := by
  unfold TrafficManager.request_lane TrafficManager.detect_collisions
  rw [h2]
  simp [h1]

/-- C2 counterexample: from the empty state, agent 1 is granted lane (0,1)
and agent 2's request for the reverse lane (1,0) then returns false, yet
agent 2 is NOT appended to (1,0)'s wait queue: the denied call hits the
BLOCKED early return of request_lane, which skips the enqueue. -/
theorem c2_loser_not_enqueued_counterexample :
    ((TrafficManager.init 0).request_lane 1 ((0 : Int), (1 : Int)) 0).2 = true ∧
    (((TrafficManager.init 0).request_lane 1 ((0 : Int), (1 : Int)) 0).1.request_lane 2
        ((1 : Int), (0 : Int)) 0).2 = false ∧
    (((TrafficManager.init 0).request_lane 1 ((0 : Int), (1 : Int)) 0).1.request_lane 2
        ((1 : Int), (0 : Int)) 0).1.waiting_queues ((1 : Int), (0 : Int)) = [] := by
  decide

/-- C2 (amended): when lane L and its reverse are both unreserved and
agent A requests L and then agent B requests reverse(L), exactly one call
returns true (A's); B's call is denied by the collision check and returns
without enqueueing anyone — every wait queue is exactly as before the two
calls. -/
theorem c2_grant_exclusivity (tm : TrafficManager) (A B : Int) (L : Lane)
    (now1 now2 : ℚ) (h1 : tm.occupied_lanes L = none)
    (h2 : tm.occupied_lanes (reverseLane L) = none) :
    (tm.request_lane A L now1).2 = true ∧
    ((tm.request_lane A L now1).1.request_lane B (reverseLane L) now2).2 = false ∧
    ((tm.request_lane A L now1).1.request_lane B (reverseLane L) now2).1.waiting_queues
      = tm.waiting_queues := by
  rw [request_lane_grant tm A L now1 h1 h2]
  refine ⟨rfl, ?_, ?_⟩ <;>
    rw [request_lane_blocked _ B (reverseLane L) now2 (by
      show (Function.update tm.occupied_lanes L (some A)
        (reverseLane (reverseLane L))).isSome = true
      rw [reverseLane_reverseLane, Function.update_same]
      rfl)]

/-- Witness for C2 at the empty initial state with L = (0,1), A = 1,
B = 2. -/
theorem c2_grant_exclusivity_witness :
    ((TrafficManager.init 0).request_lane 1 ((0 : Int), (1 : Int)) 0).2 = true ∧
    (((TrafficManager.init 0).request_lane 1 ((0 : Int), (1 : Int)) 0).1.request_lane 2
        (reverseLane ((0 : Int), (1 : Int))) 0).2 = false ∧
    (((TrafficManager.init 0).request_lane 1 ((0 : Int), (1 : Int)) 0).1.request_lane 2
        (reverseLane ((0 : Int), (1 : Int))) 0).1.waiting_queues
      = (TrafficManager.init 0).waiting_queues :=
  c2_grant_exclusivity (TrafficManager.init 0) 1 2 ((0 : Int), (1 : Int)) 0 0 rfl rfl

/-- C3 counterexample: agent 2 holds (2,3); agent 1 is denied (2,3) and
enqueued there; agent 1 is then GRANTED (0,1), but still appears in
(2,3)'s wait queue — request_lane's grant path never calls
_remove_from_other_queues. -/
theorem c3_granted_agent_still_queued_counterexample :
    ((((TrafficManager.init 0).request_lane 2 ((2 : Int), (3 : Int)) 0).1.request_lane 1
        ((2 : Int), (3 : Int)) 0).1.request_lane 1 ((0 : Int), (1 : Int)) 0).2 = true ∧
    ((((TrafficManager.init 0).request_lane 2 ((2 : Int), (3 : Int)) 0).1.request_lane 1
        ((2 : Int), (3 : Int)) 0).1.request_lane 1 ((0 : Int), (1 : Int)) 0).1.waiting_queues
      ((2 : Int), (3 : Int)) = [1] := by
  decide

/-- C3 (amended): a granting request_lane call leaves every wait queue
exactly unchanged, so the granted agent keeps whatever wait-queue
memberships it had; the removal from all queues exists only in the helper
_grant_access, which request_lane does not invoke. -/
theorem c3_grant_leaves_queues_unchanged (tm : TrafficManager) (A : Int)
    (L : Lane) (now : ℚ) (h : (tm.request_lane A L now).2 = true) :
    (tm.request_lane A L now).1.waiting_queues = tm.waiting_queues := by
  by_cases h2 : (tm.occupied_lanes (reverseLane L)).isSome
  · rw [request_lane_blocked tm A L now h2] at h
    simp at h
  · rw [Option.not_isSome_iff_eq_none] at h2
    by_cases h1 : tm.occupied_lanes L = none
    · rw [request_lane_grant tm A L now h1 h2]
    · rw [request_lane_enqueue tm A L now h2 h1] at h
      simp at h

/-- Witness for C3: the grant of (0,1) to agent 1 from the empty state
leaves the (empty) wait queues unchanged. -/
theorem c3_grant_leaves_queues_unchanged_witness :
    ((TrafficManager.init 0).request_lane 1 ((0 : Int), (1 : Int)) 0).2 = true ∧
    ((TrafficManager.init 0).request_lane 1 ((0 : Int), (1 : Int)) 0).1.waiting_queues
      = (TrafficManager.init 0).waiting_queues :=
  ⟨by decide,
   c3_grant_leaves_queues_unchanged (TrafficManager.init 0) 1 ((0 : Int), (1 : Int)) 0
     (by decide)⟩

/-- C4 counterexample: in `c4_tm` the lane (0,1) is unreserved but queues
[5]; release_lane (0,1) still pops the queue head, so the arbiter state is
NOT left unchanged. -/
theorem c4_release_pops_queue_counterexample :
    c4_tm.occupied_lanes ((0 : Int), (1 : Int)) = none ∧
    (c4_tm.release_lane ((0 : Int), (1 : Int))).waiting_queues ((0 : Int), (1 : Int))
      ≠ c4_tm.waiting_queues ((0 : Int), (1 : Int)) := by
  decide

/-- C4 (amended): releasing an unreserved lane leaves the reservation map,
the timestamp map, the deadlock-check clock and every OTHER lane's wait
queue unchanged, but drops the head of the released lane's own wait queue;
the whole state is unchanged when (and only then) that queue is empty. -/
theorem c4_noop_release (tm : TrafficManager) (L : Lane)
    (h : tm.occupied_lanes L = none) :
    (tm.release_lane L).occupied_lanes = tm.occupied_lanes ∧
    (tm.release_lane L).occupation_timestamps = tm.occupation_timestamps ∧
    (tm.release_lane L).last_deadlock_check = tm.last_deadlock_check ∧
    (∀ L' : Lane, L' ≠ L →
      (tm.release_lane L).waiting_queues L' = tm.waiting_queues L') ∧
    (tm.release_lane L).waiting_queues L = (tm.waiting_queues L).drop 1 ∧
    (tm.waiting_queues L = [] → tm.release_lane L = tm) := by
  have hocc : ¬(tm.occupied_lanes L).isSome := by simp [h]
  unfold TrafficManager.release_lane
  rw [if_neg hocc]
  unfold TrafficManager.release_lane_queue_step
  by_cases hq : tm.waiting_queues L ≠ []
  · rw [if_pos hq]
    refine ⟨rfl, rfl, rfl, ?_, ?_, ?_⟩
    · intro L' hL'
      exact Function.update_noteq hL' _ _
    · exact Function.update_same _ _ _
    · intro hempty
      exact absurd hempty hq
  · rw [if_neg hq]
    push_neg at hq
    refine ⟨rfl, rfl, rfl, fun _ _ => rfl, ?_, fun _ => rfl⟩
    rw [hq]
    rfl

/-- Witness for C4 at `c4_tm` with L = (0,1): reservations and timestamps
are untouched and the queue head 5 is dropped. -/
theorem c4_noop_release_witness :
    c4_tm.occupied_lanes ((0 : Int), (1 : Int)) = none ∧
    (c4_tm.release_lane ((0 : Int), (1 : Int))).occupied_lanes = c4_tm.occupied_lanes ∧
    (c4_tm.release_lane ((0 : Int), (1 : Int))).waiting_queues ((0 : Int), (1 : Int))
      = (c4_tm.waiting_queues ((0 : Int), (1 : Int))).drop 1 :=
  ⟨rfl,
   (c4_noop_release c4_tm ((0 : Int), (1 : Int)) rfl).1,
   (c4_noop_release c4_tm ((0 : Int), (1 : Int)) rfl).2.2.2.2.1⟩

end FleetSim

namespace FleetSim

/-- C5: evaluation at the failing input.  Reassigning the moving holder of
lane (0,1) to vertex 5 succeeds — the old path [1,2,3] is discarded for
[0,4,5] and current_lane is cleared — yet Robot.assign_task performs no
arbiter operation at all (its type takes no TrafficManager), so the
reservation (0,1) ↦ 1 recorded in c5_tm remains: the lane is orphaned
until stale reclamation, contradicting the claim that reassignment
releases it. -/
theorem c5_reassignment_orphans_reservation :
    (Robot.assign_task c5_robot 5).toOption.map
        (fun x => (x.2, x.1.current_lane, x.1.path, x.1.status)) =
      some (true, none, [0, 4, 5], "moving") ∧
    c5_tm.occupied_lanes ((0 : Int), (1 : Int)) = some 1 :=
  ⟨rfl, rfl⟩

/-- C6 counterexample: assigning unreachable vertex 9 to idle robot 1
returns the typed failure with path=[] and estimated_time=0, but the robot
list is returned untouched and the robot's status is still "idle", not
"error" — the fleet rejects before robot.assign_task ever runs. -/
theorem c6_unreachable_status_counterexample :
    FleetManager.assign_task [c6_robot] 1 9 =
      .ok ([c6_robot],
        { success := false, message := "No valid path to destination"
          estimated_time := 0, path := [] }) ∧
    c6_robot.status = "idle" :=
  ⟨rfl, rfl⟩

/-- C6 (amended): when the robot exists, is not charging, and the provider
returns an empty path, fleet-level assign_task returns success=false,
path=[], estimated_time=0 — and returns the robot list unchanged, so the
robot's status is whatever it was before (it is NOT set to "error"; the
rejection happens before robot.assign_task is invoked). -/
theorem c6_unreachable_destination (robots : List Robot)
    (robot_id dest : Int) (r : Robot)
    (hget : FleetManager.get_robot robots robot_id = some r)
    (hstatus : r.status ≠ "charging")
    (hpath : r.nav_graph.get_shortest_path r.current_vertex dest = .ok []) :
    FleetManager.assign_task robots robot_id dest =
      .ok (robots,
        { success := false, message := "No valid path to destination"
          estimated_time := 0, path := [] }) := by
  unfold FleetManager.assign_task
  rw [hget]
  dsimp only
  rw [if_neg hstatus, hpath]
  rfl

/-- Witness for C6 at the one-robot fleet [c6_robot] and destination 9. -/
theorem c6_unreachable_destination_witness :
    FleetManager.get_robot [c6_robot] 1 = some c6_robot ∧
    c6_robot.nav_graph.get_shortest_path c6_robot.current_vertex 9 = .ok [] ∧
    FleetManager.assign_task [c6_robot] 1 9 =
      .ok ([c6_robot],
        { success := false, message := "No valid path to destination"
          estimated_time := 0, path := [] }) :=
  ⟨rfl, rfl,
   c6_unreachable_destination [c6_robot] 1 9 c6_robot rfl (by decide) rfl⟩

/-- C7: evaluation at the failing input.  Lane (0,1) has been reserved
since time 0 and at time 100 is long past the 5-second staleness bound
with the 2-second cadence guard satisfied, yet ticking the (idle) fleet —
Robot.update — returns the traffic manager completely unchanged, so the
reservation survives: no code path in the repository ever calls
_perform_periodic_checks (its docstring "called from robot update"
notwithstanding).  Had it been called, it would have reclaimed the lane,
as the last conjunct shows. -/
theorem c7_stale_reclamation_never_runs :
    Robot.update c7_robot c7_tm (1/10) 100 = .ok (c7_robot, c7_tm, false) ∧
    c7_tm.occupied_lanes ((0 : Int), (1 : Int)) = some 1 ∧
    (c7_tm.perform_periodic_checks 100).occupied_lanes ((0 : Int), (1 : Int)) = none := by
  refine ⟨rfl, rfl, ?_⟩
  have hstale : c7_tm.isStale 100 ((0 : Int), (1 : Int)) = true := by
    simp [TrafficManager.isStale, c7_tm]
    norm_num
  have hc : (100 : ℚ) - c7_tm.last_deadlock_check > 2 := by
    simp [c7_tm]
    norm_num
  unfold TrafficManager.perform_periodic_checks
  rw [if_pos hc]
  simp [hstale]

/-- C8: evaluation at the failing input.  c8_robot has been waiting since
time 1 (truthy, so the Python guard passes); at time 100 the wait (99)
exceeds max_wait_time (10), so the tick replans; the provider returns an
empty path and _calculate_path sets status "error", but _handle_waiting
then unconditionally overwrites the status with "moving": the tick ends
with status "moving" and an empty path, not with status "error" as the
claim requires. -/
theorem c8_waiting_timeout_clobbers_error :
    (Robot.update c8_robot (TrafficManager.init 0) (1/10) 100).toOption.map
        (fun x => (x.1.status, x.1.path)) = some ("moving", []) := by
  have hwait : Robot.handle_waiting c8_robot 100 =
      .ok ({ c8_robot with path := ([] : List Int), status := "moving" }, true) := by
    unfold Robot.handle_waiting
    simp only [c8_robot]
    rw [if_pos (by norm_num :
      ((1 : ℚ) ≠ 0 ∧ (100 : ℚ) - 1 > (10 : ℚ)))]
    rfl
  have hup : Robot.update c8_robot (TrafficManager.init 0) (1/10) 100 =
      Robot.handle_waiting c8_robot 100 >>= fun x =>
        Except.ok (x.1, TrafficManager.init 0, x.2) := rfl
  rw [hup, hwait]
  rfl

/-- C9: evaluation at the failing input.  Destination vertex 999 is not a
node of the loaded graph, so networkx's astar_path raises NodeNotFound,
which `except NetworkXNoPath` in NavGraph.get_shortest_path does not
catch: FleetManager.assign_task propagates the exception instead of
returning a typed result dictionary. -/
theorem c9_out_of_range_vertex_raises :
    FleetManager.assign_task [c9_robot] 1 999 = .error .nodeNotFound :=
  rfl

/-- C10 counterexample: c10_robot has status "charging", yet update
returns normally instead of raising AttributeError — the predictive
collision check fires first and flips the status to "emergency_stop",
which skips the charging branch (and its battery of 100 skips the
low-battery branch). -/
theorem c10_charging_escape_counterexample :
    c10_robot.status = "charging" ∧
    (Robot.update c10_robot c10_tm 1 0).toOption.isSome = true := by
  refine ⟨rfl, ?_⟩
  have hcheck : c10_robot.check_imminent_collision c10_tm 1 = true := by
    unfold Robot.check_imminent_collision
    simp only [c10_robot]
    rw [if_pos (by norm_num : ((1 : ℚ)/2 + 1 * 1 ≥ 1))]
    rfl
  unfold Robot.update
  rw [hcheck]
  rfl

/-- C10 (amended): Robot.update is not total.  It raises AttributeError
for every charging robot for which the predictive collision check does not
fire (the dispatch reaches the undefined _handle_charging), and for every
robot with battery below min_battery whose status is neither "charging"
nor "error" (the dispatch reaches the undefined _handle_low_battery); the
only escape for a charging robot is the emergency_stop override of the
counterexample. -/
theorem c10_update_not_total (r : Robot) (tm : TrafficManager) (dt now : ℚ) :
    (r.status = "charging" → r.check_imminent_collision tm dt = false →
      Robot.update r tm dt now = .error .attributeError) ∧
    (r.status ≠ "charging" → r.status ≠ "error" →
      r.battery < r.config.min_battery →
      Robot.update r tm dt now = .error .attributeError) := by
  constructor
  · intro hs hc
    simp [Robot.update, hc, hs]
  · intro hs he hb
    by_cases hc : r.check_imminent_collision tm dt = true
    · simp [Robot.update, hc, hb]
    · rw [Bool.not_eq_true] at hc
      simp [Robot.update, hc, hs, he, hb]

/-- Witness for C10: a lane-free charging robot and an idle robot at 10%
battery both make update raise AttributeError. -/
theorem c10_update_not_total_witness :
    Robot.update c10_charging_robot (TrafficManager.init 0) 1 0
      = .error .attributeError ∧
    Robot.update c10_lowbat_robot (TrafficManager.init 0) 1 0
      = .error .attributeError :=
  ⟨(c10_update_not_total c10_charging_robot (TrafficManager.init 0) 1 0).1
      rfl rfl,
   (c10_update_not_total c10_lowbat_robot (TrafficManager.init 0) 1 0).2
      (by decide) (by decide) (by decide)⟩

end FleetSim
